import Mathlib

/-!
Verification of the ESY SunHome binary MQTT protocol codec
(`custom_components/esy_sunhome/protocol.py`) and of the derived inverter
state (`custom_components/esy_sunhome/battery.py`).

Bytes are modelled as natural numbers (each in `[0, 256)` where produced by
the code); byte strings as `List Nat`.  Python's bitwise operations on
non-negative integers are rendered arithmetically: `x & 0xFF` is `x % 256`,
`x >> 8` is `x / 256`, and `(hi << 8) | lo` with `lo < 256` is
`hi * 256 + lo`.  `struct.pack` raising on an out-of-range argument is
modelled by an `Option` result.
-/

/-- HEADER_SIZE constant from protocol.py (0x18 bytes). -/
def HEADER_SIZE : Nat := 24

/-- Embedding of `bytes_to_uint32_be`: 4 bytes to unsigned 32-bit (big-endian),
returning 0 on short input. -/
def bytes_to_uint32_be (data : List Nat) : Nat :=
  if data.length < 4 then 0
  else
    (data.getD 0 0 % 256) * 2 ^ 24 + (data.getD 1 0 % 256) * 2 ^ 16 +
      (data.getD 2 0 % 256) * 2 ^ 8 + (data.getD 3 0 % 256)

/-- Embedding of `bytes_to_uint16_be`: 2 bytes to unsigned 16-bit. -/
def bytes_to_uint16_be (b0 b1 : Nat) : Nat :=
  (b0 % 256) * 256 + (b1 % 256)

/-- Embedding of `bytes_to_int16_be`: 2 bytes to signed 16-bit
(the source masks only `b1`, computes `(b0 << 8) | (b1 & 0xFF)`, then
subtracts 0x10000 once when the result is at least 0x8000). -/
def bytes_to_int16_be (b0 b1 : Nat) : Int :=
  let value : Nat := b0 * 256 + (b1 % 256)
  if value ≥ 0x8000 then (value : Int) - 0x10000 else (value : Int)

/-- Embedding of `int32_to_bytes_be`: `struct.pack` with format `>i` demands a
signed 32-bit argument, so on a natural-number input it succeeds exactly for
values below `2 ^ 31`; out of range the Python call raises, modelled as
`none`. -/
def int32_to_bytes_be (value : Nat) : Option (List Nat) :=
  if value < 2 ^ 31 then
    some [value / 2 ^ 24 % 256, value / 2 ^ 16 % 256, value / 2 ^ 8 % 256, value % 256]
  else none

/-- Embedding of `int16_to_bytes_be`: `bytes([(value >> 8) & 0xFF, value & 0xFF])`. -/
def int16_to_bytes_be (value : Nat) : List Nat :=
  [value / 256 % 256, value % 256]

/-- Embedding of the `MsgHeader` dataclass (24-byte MQTT message header). -/
structure MsgHeader where
  config_id : Nat := 0
  msg_id : Nat := 0
  user_id : List Nat := List.replicate 8 0
  fun_code : Nat := 0
  source_id : Nat := 0
  page_index : Nat := 0
  data_length : Nat := 0
deriving DecidableEq

/-- Embedding of `MsgHeader.from_bytes`: `none` on short input, otherwise the
fields read at their fixed offsets. -/
def MsgHeader.from_bytes (data : List Nat) : Option MsgHeader :=
  if data.length < HEADER_SIZE then none
  else
    some
      { config_id := bytes_to_uint32_be (data.take 4)
        msg_id := bytes_to_uint32_be ((data.drop 4).take 4)
        user_id := (data.drop 8).take 8
        fun_code := data.getD 16 0 % 256
        source_id := data.getD 17 0 % 256
        page_index := data.getD 18 0 % 256
        data_length := bytes_to_uint16_be (data.getD 22 0) (data.getD 23 0) }

/-- Embedding of `MsgHeader.to_bytes`: serializes the header into 24 bytes.
The source packs `config_id` and `msg_id` with `struct.pack` format `>i`
(signed 32-bit), which raises outside that range — modelled by `Option`.
The user id is truncated to 8 bytes and right-padded with zeros, the source
id is shifted left by 4 bits, and the three reserved bytes are zero. -/
def MsgHeader.to_bytes (h : MsgHeader) : Option (List Nat) :=
  match int32_to_bytes_be h.config_id, int32_to_bytes_be h.msg_id with
  | some cb, some mb =>
      let user_bytes :=
        h.user_id.take 8 ++ List.replicate (8 - (h.user_id.take 8).length) 0
      some (cb ++ mb ++ user_bytes ++
        [h.fun_code % 256, h.source_id * 16 % 256, h.page_index % 256, 0, 0, 0] ++
        int16_to_bytes_be h.data_length)
  | _, _ => none

/-- Embedding of the `ParamSegment` dataclass. -/
structure ParamSegment where
  segment_id : Nat := 0
  segment_type : Nat := 0
  segment_address : Nat := 0
  params_num : Nat := 0
  values : List Nat := []
deriving DecidableEq

/-- Embedding of the `ParamsListBean` dataclass. -/
structure ParamsListBean where
  segment_count : Nat := 0
  segments : List ParamSegment := []
deriving DecidableEq

/-- Embedding of `PayloadParser._read_uint16`: reads a big-endian 16-bit word
at `pos` and advances, or returns 0 without advancing when fewer than two
bytes remain.  Returns the value together with the new position. -/
def read_uint16 (data : List Nat) (pos : Nat) : Nat × Nat :=
  if pos + 2 > data.length then (0, pos)
  else (bytes_to_uint16_be (data.getD pos 0) (data.getD (pos + 1) 0), pos + 2)

/-- Embedding of the segment loop of `PayloadParser.parse_params_list`: one
iteration per declared segment.  An iteration stops the whole loop when fewer
than 8 bytes remain for the sub-header; when the declared value bytes do not
fit, the segment is still appended with empty `values` and the position is
not advanced. -/
def parseSegmentsLoop (data : List Nat) : Nat → Nat → List ParamSegment
  | 0, _ => []
  | n + 1, pos =>
    if data.length < pos + 8 then []
    else
      let r1 := read_uint16 data pos
      let r2 := read_uint16 data r1.2
      let r3 := read_uint16 data r2.2
      let r4 := read_uint16 data r3.2
      let value_bytes := r4.1 * 2
      if r4.2 + value_bytes ≤ data.length then
        { segment_id := r1.1, segment_type := r2.1, segment_address := r3.1,
          params_num := r4.1, values := (data.drop r4.2).take value_bytes }
          :: parseSegmentsLoop data n (r4.2 + value_bytes)
      else
        { segment_id := r1.1, segment_type := r2.1, segment_address := r3.1,
          params_num := r4.1, values := [] }
          :: parseSegmentsLoop data n r4.2

/-- Embedding of `PayloadParser.parse_params_list`: empty input yields the
default bean; otherwise a leading 16-bit segment count followed by that many
segment reads. -/
def parse_params_list (data : List Nat) : ParamsListBean :=
  if data.length = 0 then {}
  else
    let r0 := read_uint16 data 0
    { segment_count := r0.1, segments := parseSegmentsLoop data r0.1 r0.2 }

/-- Coefficients appearing in `SEGMENT_KEY_MAP` (1, 0.1, 0.01 in the source;
0.001 appears only in `REGISTER_DEFINITIONS`). -/
inductive Coeff where
  | one
  | tenth
  | hundredth
  | thousandth
deriving DecidableEq

/-- Value stored in the parsed-values dictionary.  The source stores a plain
Python `int` when the coefficient is 1 and the float `raw * coefficient`
otherwise; the scaled case is kept symbolically as the raw register value
paired with its coefficient (every register the claims concern has
coefficient 1). -/
inductive PVal where
  | i : Int → PVal
  | scaled : Int → Coeff → PVal
deriving DecidableEq

/-- Python `int(...)` applied to a stored value: the identity on ints, and
truncation toward zero of `raw * coefficient` for scaled values (exact
arithmetic in place of the source's float multiplication; no claim exercises
this branch). -/
def PVal.toInt : PVal → Int
  | .i v => v
  | .scaled raw c =>
    match c with
    | .one => raw
    | .tenth => raw.tdiv 10
    | .hundredth => raw.tdiv 100
    | .thousandth => raw.tdiv 1000

/-- Keys of the parsed-values dictionary.  The source uses one string
namespace in which the synthetic debug keys are the strings
`"reg_" + str(address)`; since no catalog key name matches that pattern, the
two families are modelled as disjoint constructors. -/
inductive Key where
  | name : String → Key
  | reg : Nat → Key
deriving DecidableEq

/-- The `all_values` dictionary accumulated while parsing segments. -/
def AllValues : Type := Key → Option PVal

/-- Dictionary assignment `all_values[key] = value`. -/
def updateMap (m : AllValues) (k : Key) (v : PVal) : AllValues :=
  fun k' => if k' = k then some v else m k'

/-- Embedding of `SEGMENT_KEY_MAP` (with the source's `dict.get(id, [])`
behaviour for unknown segment ids): segment id to the list of
(offset, key name, data type, coefficient) tuples. -/
def SEGMENT_KEY_MAP : Nat → List (Nat × String × String × Coeff)
  | 1 =>
    [(0, "systemRunMode", "unsigned", .one),
     (1, "systemRunStatus", "unsigned", .one)]
  | 2 =>
    [(0, "dcdcTemperature", "signed", .one),
     (1, "busVoltage", "unsigned", .tenth),
     (2, "dailyEnergyGeneration", "unsigned", .tenth),
     (3, "totalEnergyGeneration", "unsigned", .tenth),
     (5, "ratedPower", "unsigned", .one),
     (6, "outputRatedPower", "unsigned", .one)]
  | 3 =>
    [(0, "pv1voltage", "unsigned", .tenth),
     (1, "pv1current", "unsigned", .tenth),
     (2, "pv1Power", "unsigned", .one),
     (3, "pv2voltage", "unsigned", .tenth),
     (4, "pv2current", "unsigned", .tenth),
     (5, "pv2Power", "unsigned", .one)]
  | 4 =>
    [(0, "batteryStatus", "unsigned", .one),
     (1, "batteryVoltage", "unsigned", .tenth),
     (2, "batteryCurrent", "signed", .tenth),
     (3, "batteryPower", "signed", .one),
     (4, "battTotalSoc", "unsigned", .one),
     (5, "batterySoc", "unsigned", .one),
     (6, "battNum", "unsigned", .one),
     (7, "battEnergy", "unsigned", .tenth)]
  | 5 =>
    [(0, "gridStatus", "unsigned", .one),
     (1, "gridFreq", "unsigned", .hundredth),
     (2, "gridVolt", "unsigned", .tenth),
     (3, "gridActivePower", "signed", .one),
     (4, "ct1Curr", "signed", .tenth),
     (5, "ct1Power", "signed", .one),
     (6, "ct2Curr", "signed", .tenth),
     (7, "ct2Power", "signed", .one),
     (8, "onOffGridMode", "unsigned", .one)]
  | 6 =>
    [(0, "invTemperature", "signed", .one),
     (1, "invStatus", "unsigned", .one),
     (2, "invOutputFreq", "unsigned", .hundredth),
     (3, "invOutputVolt", "unsigned", .tenth),
     (4, "invOutputCurr", "unsigned", .tenth),
     (5, "invApparentPower", "signed", .one),
     (6, "invActivePower", "signed", .one)]
  | 7 =>
    [(0, "energyFlowPvTotalPower", "signed", .one),
     (1, "energyFlowBattPower", "signed", .one),
     (2, "energyFlowGridPower", "signed", .one),
     (3, "energyFlowLoadTotalPower", "signed", .one)]
  | 8 =>
    [(0, "loadVolt", "unsigned", .tenth),
     (1, "loadCurr", "unsigned", .tenth),
     (2, "loadActivePower", "signed", .one),
     (3, "loadRealTimePower", "signed", .one)]
  | 9 =>
    [(0, "dailyPowerConsumption", "unsigned", .tenth),
     (1, "totalEconsumption", "unsigned", .tenth),
     (3, "dailyGridConnectionPower", "unsigned", .tenth),
     (4, "totalOnGridElecGenerated", "unsigned", .tenth),
     (6, "dailyOnGridElecConsumption", "unsigned", .tenth),
     (7, "totalOnGridElecConsumption", "unsigned", .tenth),
     (9, "dailyBattChargeEnergy", "unsigned", .tenth),
     (10, "totalBattChargeEnergy", "unsigned", .tenth),
     (12, "dailyBattDischargeEnergy", "unsigned", .tenth),
     (13, "totalBattDischargeEnergy", "unsigned", .tenth)]
  | 10 =>
    [(0, "antiBackflowPowerPercentage", "unsigned", .one),
     (1, "batteryChargingCurrent", "unsigned", .tenth),
     (2, "batteryDischargeCurrent", "unsigned", .tenth),
     (3, "onGridSocLimit", "unsigned", .one),
     (4, "offGridSocLimit", "unsigned", .one)]
  | _ => []

/-- One iteration of the key-map loop in
`ESYTelemetryParser._parse_segment_values`: when the two value bytes at the
entry's offset are available, the raw 16-bit word is interpreted per the
entry's type, the coefficient is applied, and the dictionary entry is set. -/
def apply_key_map_entry (segment : ParamSegment) (acc : AllValues)
    (e : Nat × String × String × Coeff) : AllValues :=
  let offset := e.1
  let key_name := e.2.1
  let data_type := e.2.2.1
  let coefficient := e.2.2.2
  if offset * 2 + 2 ≤ segment.values.length then
    let b0 := segment.values.getD (offset * 2) 0
    let b1 := segment.values.getD (offset * 2 + 1) 0
    let raw_value : Int :=
      if data_type = "signed" then bytes_to_int16_be b0 b1
      else (bytes_to_uint16_be b0 b1 : Int)
    let value : PVal :=
      if coefficient = Coeff.one then .i raw_value
      else .scaled raw_value coefficient
    updateMap acc (Key.name key_name) value
  else acc

/-- One iteration of the raw-register loop in
`ESYTelemetryParser._parse_segment_values`: register `i` of the segment is
stored under the synthetic debug key for address `segment_address + i` as its
signed 16-bit value, when its two bytes are available. -/
def store_raw_register (segment : ParamSegment) (acc : AllValues) (i : Nat) :
    AllValues :=
  if i * 2 + 2 ≤ segment.values.length then
    let b0 := segment.values.getD (i * 2) 0
    let b1 := segment.values.getD (i * 2 + 1) 0
    updateMap acc (Key.reg (segment.segment_address + i))
      (.i (bytes_to_int16_be b0 b1))
  else acc

/-- Embedding of `ESYTelemetryParser._parse_segment_values`: first the
key-map loop for the segment's id, then the raw-register loop over all
`params_num` registers. -/
def parse_segment_values (segment : ParamSegment) (m : AllValues) : AllValues :=
  let m1 := (SEGMENT_KEY_MAP segment.segment_id).foldl (apply_key_map_entry segment) m
  (List.range segment.params_num).foldl (store_raw_register segment) m1

/-- Embedding of the `TelemetryData` dataclass, restricted to the
integer-valued fields the claims concern plus the `all_values` dictionary
(the remaining fields are float-valued display values mapped one-for-one
from single dictionary lookups and are not referenced by any claim). -/
structure TelemetryData where
  pv_power : Int := 0
  pv1_power : Int := 0
  pv2_power : Int := 0
  battery_power : Int := 0
  ct1_power : Int := 0
  ct2_power : Int := 0
  load_power : Int := 0
  grid_power : Int := 0
  energy_flow_pv_total_power : Int := 0
  energy_flow_batt_power : Int := 0
  energy_flow_grid_power : Int := 0
  energy_flow_load_total_power : Int := 0
  battery_soc : Int := 0
  all_values : AllValues := fun _ => none

/-- Python `int(all_values.get(key, dflt))`. -/
def getInt (m : AllValues) (k : Key) (dflt : PVal) : Int :=
  ((m k).getD dflt).toInt

/-- Embedding of `ESYTelemetryParser._build_telemetry_data`: folds
`_parse_segment_values` over the segments and then maps the dictionary onto
the `TelemetryData` fields exactly as the source does (`pv_power` is the sum
of the two string powers, `grid_power` is `ct1_power`, the energy-flow
fields default to the corresponding derived value, and `battery_soc` prefers
`battTotalSoc` over `batterySoc` by mere presence). -/
def build_telemetry_data (params : ParamsListBean) : TelemetryData :=
  let all_values : AllValues :=
    params.segments.foldl (fun acc s => parse_segment_values s acc) (fun _ => none)
  let pv1_power := getInt all_values (Key.name "pv1Power") (.i 0)
  let pv2_power := getInt all_values (Key.name "pv2Power") (.i 0)
  let pv_power := pv1_power + pv2_power
  let battery_power := getInt all_values (Key.name "batteryPower") (.i 0)
  let ct1_power := getInt all_values (Key.name "ct1Power") (.i 0)
  let ct2_power := getInt all_values (Key.name "ct2Power") (.i 0)
  let load_power := getInt all_values (Key.name "loadRealTimePower") (.i 0)
  let grid_power := ct1_power
  { pv_power := pv_power
    pv1_power := pv1_power
    pv2_power := pv2_power
    battery_power := battery_power
    ct1_power := ct1_power
    ct2_power := ct2_power
    load_power := load_power
    grid_power := grid_power
    energy_flow_pv_total_power :=
      getInt all_values (Key.name "energyFlowPvTotalPower") (.i pv_power)
    energy_flow_batt_power :=
      getInt all_values (Key.name "energyFlowBattPower") (.i battery_power)
    energy_flow_grid_power :=
      getInt all_values (Key.name "energyFlowGridPower") (.i grid_power)
    energy_flow_load_total_power :=
      getInt all_values (Key.name "energyFlowLoadTotalPower") (.i load_power)
    battery_soc :=
      PVal.toInt ((all_values (Key.name "battTotalSoc")).getD
        ((all_values (Key.name "batterySoc")).getD (.i 0)))
    all_values := all_values }

namespace InverterState

/-- Embedding of the `InverterState.battery_import` property:
`max(0, battery_power)`. -/
def battery_import (t : TelemetryData) : Int := max 0 t.battery_power

/-- Embedding of the `InverterState.battery_export` property:
`max(0, -battery_power)`. -/
def battery_export (t : TelemetryData) : Int := max 0 (-t.battery_power)

/-- Embedding of the `InverterState.grid_import` property:
`max(0, grid_power)`. -/
def grid_import (t : TelemetryData) : Int := max 0 t.grid_power

/-- Embedding of the `InverterState.grid_export` property:
`max(0, -grid_power)`. -/
def grid_export (t : TelemetryData) : Int := max 0 (-t.grid_power)

end InverterState

/-- Embedding of `ESYCommandBuilder.build_write_command` with the builder's
mutable state made explicit: `user_id_bytes` is the builder's precomputed
user id field and `msg_id` the value drawn from its counter.  The payload is
the register address followed by `value & 0xFFFF`; the header carries
function code WRITE_SINGLE (6), source id 2 and page index 0, and its
`data_length` is the payload length. -/
def build_write_command (user_id_bytes : List Nat) (msg_id : Nat)
    (register_address value config_id : Nat) : Option (List Nat) :=
  let payload := int16_to_bytes_be register_address ++ int16_to_bytes_be (value % 65536)
  let header : MsgHeader :=
    { config_id := config_id
      msg_id := msg_id
      user_id := user_id_bytes
      fun_code := 6
      source_id := 2
      page_index := 0
      data_length := payload.length }
  (MsgHeader.to_bytes header).map (fun hb => hb ++ payload)

/-!  Helper lemmas. -/

/-- A list of length 8 is an explicit 8-tuple. -/
lemma list_eq_of_length_eight (l : List Nat) (h : l.length = 8) :
    ∃ a b c d e f g i, l = [a, b, c, d, e, f, g, i] := by
  rcases l with _ | ⟨a, _ | ⟨b, _ | ⟨c, _ | ⟨d, _ | ⟨e, _ | ⟨f, _ | ⟨g, _ | ⟨i, _ | ⟨j, t⟩⟩⟩⟩⟩⟩⟩⟩⟩ <;>
      simp only [List.length_nil, List.length_cons] at h <;>
    first
      | omega
      | exact ⟨_, _, _, _, _, _, _, _, rfl⟩

/-- Header parsing on an explicit 24-byte list, by computation. -/
lemma from_bytes_explicit (b0 b1 b2 b3 b4 b5 b6 b7 b8 b9 b10 b11 b12 b13 b14 b15
    b16 b17 b18 b19 b20 b21 b22 b23 : Nat) :
    MsgHeader.from_bytes [b0, b1, b2, b3, b4, b5, b6, b7, b8, b9, b10, b11, b12,
        b13, b14, b15, b16, b17, b18, b19, b20, b21, b22, b23] =
      some
        { config_id := (b0 % 256) * 2 ^ 24 + (b1 % 256) * 2 ^ 16 + (b2 % 256) * 2 ^ 8 + (b3 % 256)
          msg_id := (b4 % 256) * 2 ^ 24 + (b5 % 256) * 2 ^ 16 + (b6 % 256) * 2 ^ 8 + (b7 % 256)
          user_id := [b8, b9, b10, b11, b12, b13, b14, b15]
          fun_code := b16 % 256
          source_id := b17 % 256
          page_index := b18 % 256
          data_length := (b22 % 256) * 256 + (b23 % 256) } := rfl

/-- In-range serialization: the explicit byte list produced by `to_bytes`. -/
lemma to_bytes_in_range (h : MsgHeader) (hc : h.config_id < 2 ^ 31) (hm : h.msg_id < 2 ^ 31)
    (u0 u1 u2 u3 u4 u5 u6 u7 : Nat) (hu : h.user_id = [u0, u1, u2, u3, u4, u5, u6, u7]) :
    MsgHeader.to_bytes h =
      some [h.config_id / 2 ^ 24 % 256, h.config_id / 2 ^ 16 % 256,
        h.config_id / 2 ^ 8 % 256, h.config_id % 256,
        h.msg_id / 2 ^ 24 % 256, h.msg_id / 2 ^ 16 % 256,
        h.msg_id / 2 ^ 8 % 256, h.msg_id % 256,
        u0, u1, u2, u3, u4, u5, u6, u7,
        h.fun_code % 256, h.source_id * 16 % 256, h.page_index % 256, 0, 0, 0,
        h.data_length / 256 % 256, h.data_length % 256] := by
  have hcb : int32_to_bytes_be h.config_id =
      some [h.config_id / 2 ^ 24 % 256, h.config_id / 2 ^ 16 % 256,
        h.config_id / 2 ^ 8 % 256, h.config_id % 256] := by
    rw [int32_to_bytes_be, if_pos hc]
  have hmb : int32_to_bytes_be h.msg_id =
      some [h.msg_id / 2 ^ 24 % 256, h.msg_id / 2 ^ 16 % 256,
        h.msg_id / 2 ^ 8 % 256, h.msg_id % 256] := by
    rw [int32_to_bytes_be, if_pos hm]
  simp only [MsgHeader.to_bytes, hcb, hmb, hu]
  rfl

/-!  C1: header round-trip. -/

/-- C1 counterexample: the claimed round-trip `from_bytes (to_bytes h) = h`
fails at the in-range header with `source_id = 1` (serialization left-shifts
the source id by 4 bits but parsing reads the raw byte back, returning 16). -/
theorem roundtrip_fails_on_source_id :
    (MsgHeader.to_bytes { source_id := 1 }).bind MsgHeader.from_bytes ≠
      some { source_id := 1 } := by decide

/-- C1 (amended): for headers with `config_id` and `msg_id` below `2 ^ 31`
(the range on which serialization does not raise), `user_id` of exactly
8 bytes, and the one-byte fields in range, parsing the serialized bytes
recovers every field except `source_id`, which comes back as
`source_id * 16 % 256` (so the full round-trip holds exactly when
`source_id = 0`). -/
theorem header_roundtrip_amended (h : MsgHeader)
    (hc : h.config_id < 2 ^ 31) (hm : h.msg_id < 2 ^ 31)
    (hu : h.user_id.length = 8) (hf : h.fun_code < 256)
    (hp : h.page_index < 256) (hd : h.data_length < 65536) :
    ∃ bs, MsgHeader.to_bytes h = some bs ∧
      MsgHeader.from_bytes bs = some { h with source_id := h.source_id * 16 % 256 } := by
  obtain ⟨u0, u1, u2, u3, u4, u5, u6, u7, hu8⟩ := list_eq_of_length_eight h.user_id hu
  refine ⟨_, to_bytes_in_range h hc hm u0 u1 u2 u3 u4 u5 u6 u7 hu8, ?_⟩
  rw [from_bytes_explicit]
  simp only [Option.some.injEq, MsgHeader.mk.injEq, hu8, true_and, and_true, eq_self_iff_true]
  omega

/-- C1 witness: the amended round-trip at a concrete in-range header. -/
theorem header_roundtrip_amended_witness :
    ∃ bs,
      MsgHeader.to_bytes
        { config_id := 1, msg_id := 2, user_id := [1, 2, 3, 4, 5, 6, 7, 8],
          fun_code := 3, source_id := 5, page_index := 7, data_length := 9 } = some bs ∧
      MsgHeader.from_bytes bs = some
        { config_id := 1, msg_id := 2, user_id := [1, 2, 3, 4, 5, 6, 7, 8],
          fun_code := 3, source_id := 80, page_index := 7, data_length := 9 } :=
  header_roundtrip_amended _ (by decide) (by decide) (by decide) (by decide)
    (by decide) (by decide)

/-!  C10: totality range of serialization. -/

/-- Shared helper: serialization succeeds with a 24-byte result whenever
`config_id` and `msg_id` are below `2 ^ 31`. -/
lemma to_bytes_some_length (h : MsgHeader) (hc : h.config_id < 2 ^ 31)
    (hm : h.msg_id < 2 ^ 31) :
    ∃ bs, MsgHeader.to_bytes h = some bs ∧ bs.length = 24 := by
  have hcb : int32_to_bytes_be h.config_id =
      some [h.config_id / 2 ^ 24 % 256, h.config_id / 2 ^ 16 % 256,
        h.config_id / 2 ^ 8 % 256, h.config_id % 256] := by
    rw [int32_to_bytes_be, if_pos hc]
  have hmb : int32_to_bytes_be h.msg_id =
      some [h.msg_id / 2 ^ 24 % 256, h.msg_id / 2 ^ 16 % 256,
        h.msg_id / 2 ^ 8 % 256, h.msg_id % 256] := by
    rw [int32_to_bytes_be, if_pos hm]
  simp only [MsgHeader.to_bytes, hmb, hcb]
  refine ⟨_, rfl, ?_⟩
  simp only [int16_to_bytes_be, List.length_append, List.length_cons, List.length_nil,
    List.length_replicate, List.length_take]
  omega

/-- C10: when `config_id` and `msg_id` both lie in `[0, 2 ^ 31)`, `to_bytes`
returns exactly 24 bytes without raising; and this precondition is strictly
narrower than the header's declared unsigned 32-bit range, because
`struct.pack` format `>i` (signed 32-bit) raises at `2 ^ 31`. -/
theorem to_bytes_totality_range :
    (∀ h : MsgHeader, h.config_id < 2 ^ 31 → h.msg_id < 2 ^ 31 →
      ∃ bs, MsgHeader.to_bytes h = some bs ∧ bs.length = 24) ∧
    MsgHeader.to_bytes { config_id := 2 ^ 31 } = none ∧ 2 ^ 31 < 2 ^ 32 :=
  ⟨fun h hc hm => to_bytes_some_length h hc hm, by decide, by decide⟩

/-- C10 witness: the totality statement at a concrete in-range header. -/
theorem to_bytes_totality_range_witness :
    ∃ bs, MsgHeader.to_bytes { config_id := 2 ^ 31 - 1, msg_id := 12 } = some bs ∧
      bs.length = 24 :=
  to_bytes_totality_range.1 _ (by decide) (by decide)

/-!  C9: write-command frame layout. -/

/-- C9: the write-single builder invoked with register address 57, value 5 and
config id 6 produces a 28-byte frame (24-byte header with function code
WRITE_SINGLE at byte 16, then the 4-byte payload) whose bytes 24-25 are
`[0x00, 0x39]` and bytes 26-27 are `[0x00, 0x05]`.  The builder fixes
`source_id = 2` and `page_index = 0` (they are not parameters), and its user
id field `user_id_to_bytes(...)` is always 8 bytes, quantified here. -/
theorem write_command_frame_layout (user_id_bytes : List Nat)
    (hu : user_id_bytes.length = 8) (msg_id : Nat) (hm : msg_id < 2 ^ 31) :
    ∃ frame, build_write_command user_id_bytes msg_id 57 5 6 = some frame ∧
      frame.length = 28 ∧ frame.getD 24 0 = 0x00 ∧ frame.getD 25 0 = 0x39 ∧
      frame.getD 26 0 = 0x00 ∧ frame.getD 27 0 = 0x05 ∧ frame.getD 16 0 = 6 := by
  obtain ⟨u0, u1, u2, u3, u4, u5, u6, u7, hu8⟩ := list_eq_of_length_eight user_id_bytes hu
  have hmb : int32_to_bytes_be msg_id =
      some [msg_id / 2 ^ 24 % 256, msg_id / 2 ^ 16 % 256,
        msg_id / 2 ^ 8 % 256, msg_id % 256] := by
    rw [int32_to_bytes_be, if_pos hm]
  have hframe : build_write_command user_id_bytes msg_id 57 5 6 =
      some [0, 0, 0, 6,
        msg_id / 2 ^ 24 % 256, msg_id / 2 ^ 16 % 256, msg_id / 2 ^ 8 % 256, msg_id % 256,
        u0, u1, u2, u3, u4, u5, u6, u7,
        6, 32, 0, 0, 0, 0, 0, 4, 0, 57, 0, 5] := by
    simp only [build_write_command, MsgHeader.to_bytes, hmb, hu8]
    rfl
  exact ⟨_, hframe, rfl, rfl, rfl, rfl, rfl, rfl⟩

/-- C9 witness: the frame layout at a concrete builder state. -/
theorem write_command_frame_layout_witness :
    ∃ frame, build_write_command [0, 0, 0, 0, 0, 0, 0, 0] 1 57 5 6 = some frame ∧
      frame.length = 28 ∧ frame.getD 24 0 = 0x00 ∧ frame.getD 25 0 = 0x39 ∧
      frame.getD 26 0 = 0x00 ∧ frame.getD 27 0 = 0x05 ∧ frame.getD 16 0 = 6 :=
  write_command_frame_layout [0, 0, 0, 0, 0, 0, 0, 0] (by decide) 1 (by decide)

/-!  C2: segment decoder truncation behavior. -/

/-- C2 counterexample: for a payload declaring one segment whose 5 declared
registers (10 value bytes) are entirely missing, the decoder does not stop
before that segment — it emits it with empty `values` (the claimed behavior
would return no segments). -/
theorem segment_decode_keeps_truncated_segment :
    (parse_params_list [0, 1, 0, 1, 0, 3, 0, 0, 0, 5]).segments =
      [{ segment_id := 1, segment_type := 3, segment_address := 0,
         params_num := 5, values := [] }] ∧
    (parse_params_list [0, 1, 0, 1, 0, 3, 0, 0, 0, 5]).segments ≠ [] := by decide

/-- C2 (amended): the decoder is a total function that returns an empty
segment sequence for empty or sub-2-byte input and stops the loop when fewer
than 8 bytes remain for a segment sub-header; but when only the declared
value bytes exceed the remaining input, the segment is still appended with
empty `values` and the loop continues at the position just after the
sub-header. -/
theorem segment_decode_truncation_behavior :
    (∀ data : List Nat, data.length < 2 → (parse_params_list data).segments = []) ∧
    (∀ (data : List Nat) (n pos : Nat), data.length < pos + 8 →
      parseSegmentsLoop data n pos = []) ∧
    (∀ (data : List Nat) (n pos : Nat), pos + 8 ≤ data.length →
      data.length <
        pos + 8 + bytes_to_uint16_be (data.getD (pos + 6) 0) (data.getD (pos + 7) 0) * 2 →
      parseSegmentsLoop data (n + 1) pos =
        { segment_id := bytes_to_uint16_be (data.getD pos 0) (data.getD (pos + 1) 0),
          segment_type := bytes_to_uint16_be (data.getD (pos + 2) 0) (data.getD (pos + 3) 0),
          segment_address := bytes_to_uint16_be (data.getD (pos + 4) 0) (data.getD (pos + 5) 0),
          params_num := bytes_to_uint16_be (data.getD (pos + 6) 0) (data.getD (pos + 7) 0),
          values := [] } :: parseSegmentsLoop data n (pos + 8)) := by
  refine ⟨?_, ?_, ?_⟩
  · intro data h
    rcases data with _ | ⟨a, _ | ⟨b, t⟩⟩
    · rfl
    · rfl
    · simp only [List.length_cons] at h; omega
  · intro data n pos h
    cases n with
    | zero => rfl
    | succ n => rw [parseSegmentsLoop, if_pos h]
  · intro data n pos h1 h2
    rw [parseSegmentsLoop, if_neg (by omega)]
    have e1 : read_uint16 data pos =
        (bytes_to_uint16_be (data.getD pos 0) (data.getD (pos + 1) 0), pos + 2) := by
      rw [read_uint16, if_neg (by omega)]
    have e2 : read_uint16 data (pos + 2) =
        (bytes_to_uint16_be (data.getD (pos + 2) 0) (data.getD (pos + 3) 0), pos + 2 + 2) := by
      rw [read_uint16, if_neg (by omega)]
    have e3 : read_uint16 data (pos + 2 + 2) =
        (bytes_to_uint16_be (data.getD (pos + 4) 0) (data.getD (pos + 5) 0), pos + 2 + 2 + 2) := by
      rw [read_uint16, if_neg (by omega)]
    have e4 : read_uint16 data (pos + 2 + 2 + 2) =
        (bytes_to_uint16_be (data.getD (pos + 6) 0) (data.getD (pos + 7) 0), pos + 8) := by
      rw [read_uint16, if_neg (by omega)]
    simp only [e1, e2, e3, e4]
    rw [if_neg (by omega)]

/-- C2 witness: the three amended statements at concrete inputs. -/
theorem segment_decode_truncation_behavior_witness :
    (parse_params_list [7]).segments = [] ∧
    parseSegmentsLoop [] 3 0 = [] ∧
    parseSegmentsLoop [0, 1, 0, 1, 0, 3, 0, 0, 0, 9] 1 2 =
      { segment_id := bytes_to_uint16_be ([0, 1, 0, 1, 0, 3, 0, 0, 0, 9].getD 2 0)
          ([0, 1, 0, 1, 0, 3, 0, 0, 0, 9].getD 3 0),
        segment_type := bytes_to_uint16_be ([0, 1, 0, 1, 0, 3, 0, 0, 0, 9].getD 4 0)
          ([0, 1, 0, 1, 0, 3, 0, 0, 0, 9].getD 5 0),
        segment_address := bytes_to_uint16_be ([0, 1, 0, 1, 0, 3, 0, 0, 0, 9].getD 6 0)
          ([0, 1, 0, 1, 0, 3, 0, 0, 0, 9].getD 7 0),
        params_num := bytes_to_uint16_be ([0, 1, 0, 1, 0, 3, 0, 0, 0, 9].getD 8 0)
          ([0, 1, 0, 1, 0, 3, 0, 0, 0, 9].getD 9 0),
        values := [] } :: parseSegmentsLoop [0, 1, 0, 1, 0, 3, 0, 0, 0, 9] 0 (2 + 8) :=
  ⟨segment_decode_truncation_behavior.1 [7] (by decide),
   segment_decode_truncation_behavior.2.1 [] 3 0 (by decide),
   segment_decode_truncation_behavior.2.2 [0, 1, 0, 1, 0, 3, 0, 0, 0, 9] 0 2
     (by decide) (by decide)⟩

/-!  C8: segment values-length invariant. -/

/-- C8 counterexample: a payload whose single declared segment announces 3
registers but supplies no value bytes produces a segment violating
`values.length == params_num * 2` — the truncated segment is kept (with
empty values), not dropped. -/
theorem truncated_segment_not_dropped :
    ((parse_params_list [0, 1, 0, 2, 0, 4, 0, 0, 0, 3]).segments.all
        (fun s => s.values.length == s.params_num * 2)) = false ∧
    (parse_params_list [0, 1, 0, 2, 0, 4, 0, 0, 0, 3]).segments.length = 1 := by decide

/-- Invariant of the segment loop: every emitted segment either carries
exactly `params_num * 2` value bytes or is a truncated segment kept with
empty values. -/
lemma parseSegmentsLoop_values_inv (data : List Nat) :
    ∀ (n pos : Nat), ∀ s ∈ parseSegmentsLoop data n pos,
      s.values.length = s.params_num * 2 ∨ s.values = [] := by
  intro n
  induction n with
  | zero =>
    intro pos s hs
    simp only [parseSegmentsLoop, List.not_mem_nil] at hs
  | succ n ih =>
    intro pos s hs
    rw [parseSegmentsLoop] at hs
    split at hs
    · simp only [List.not_mem_nil] at hs
    · dsimp only at hs
      split at hs <;> rcases List.mem_cons.mp hs with rfl | hmem
      · left
        next hfit _ =>
          simp only [List.length_take, List.length_drop]
          omega
      · exact ih _ s hmem
      · right; rfl
      · exact ih _ s hmem

/-- C8 (amended): every `ParamSegment` produced by payload decoding either
satisfies `values.length == params_num * 2` or is a truncated segment that
the decoder keeps with empty `values` instead of dropping it. -/
theorem segment_values_length_invariant (data : List Nat) :
    ∀ s ∈ (parse_params_list data).segments,
      s.values.length = s.params_num * 2 ∨ s.values = [] := by
  intro s hs
  by_cases hd : data.length = 0
  · simp only [parse_params_list, if_pos hd] at hs
    simp at hs
  · simp only [parse_params_list, if_neg hd] at hs
    exact parseSegmentsLoop_values_inv data _ _ s hs

/-- C8 witness: the invariant at a concrete well-formed payload. -/
theorem segment_values_length_invariant_witness :
    ({ segment_id := 1, segment_type := 3, segment_address := 2, params_num := 1,
       values := [171, 205] } : ParamSegment).values.length =
      ({ segment_id := 1, segment_type := 3, segment_address := 2, params_num := 1,
         values := [171, 205] } : ParamSegment).params_num * 2 ∨
    ({ segment_id := 1, segment_type := 3, segment_address := 2, params_num := 1,
       values := [171, 205] } : ParamSegment).values = [] :=
  segment_values_length_invariant [0, 1, 0, 1, 0, 3, 0, 2, 0, 1, 171, 205] _ (by decide)

/-!  C4: import/export mutual exclusivity. -/

/-- C4: for every telemetry state, at most one of each directional pair
(battery import/export, grid import/export) is non-zero, because the pairs
are `max(0, p)` and `max(0, -p)` of a single signed power value. -/
theorem import_export_mutual_exclusivity (t : TelemetryData) :
    (0 < InverterState.battery_import t → InverterState.battery_export t = 0) ∧
    (0 < InverterState.battery_export t → InverterState.battery_import t = 0) ∧
    (0 < InverterState.grid_import t → InverterState.grid_export t = 0) ∧
    (0 < InverterState.grid_export t → InverterState.grid_import t = 0) := by
  simp only [InverterState.battery_import, InverterState.battery_export,
    InverterState.grid_import, InverterState.grid_export]
  omega

/-- C4 witness: the exclusivity at a concrete state that is charging the
battery and exporting to the grid. -/
theorem import_export_mutual_exclusivity_witness :
    InverterState.battery_export
        ({ battery_power := 5, grid_power := -3 } : TelemetryData) = 0 ∧
    InverterState.grid_import
        ({ battery_power := 5, grid_power := -3 } : TelemetryData) = 0 :=
  ⟨(import_export_mutual_exclusivity
      ({ battery_power := 5, grid_power := -3 } : TelemetryData)).1 (by decide),
   (import_export_mutual_exclusivity
      ({ battery_power := 5, grid_power := -3 } : TelemetryData)).2.2.2 (by decide)⟩


/-!  C3: state-of-charge selection. -/

/-- Concrete frame for C3: battery segment (id 4) carrying
`battTotalSoc = 150` (offset 4) and `batterySoc = 80` (offset 5). -/
def socCexFrame : ParamsListBean :=
  { segment_count := 1
    segments := [{ segment_id := 4
                   segment_type := 3
                   segment_address := 100
                   params_num := 6
                   values := [0, 0, 0, 0, 0, 0, 0, 0, 0, 150, 0, 80] }] }

/-- C3 counterexample: a frame whose battery segment carries
`battTotalSoc = 150` and `batterySoc = 80` synthesizes `battery_soc = 150` —
the out-of-range preferred register is surfaced unmodified, with no range
check and no fallback to the in-range secondary register. -/
theorem soc_out_of_range_surfaced :
    (build_telemetry_data socCexFrame).battery_soc = 150 ∧
    (build_telemetry_data socCexFrame).all_values (Key.name "batterySoc") =
      some (.i 80) := by decide

/-- C3 (amended): the synthesized state of charge is selected by presence
only — `battTotalSoc` when that key is present (whatever its value, with no
[0,100] range check), otherwise `batterySoc`, otherwise 0. -/
theorem battery_soc_presence_preference (params : ParamsListBean) :
    (∀ v : Int,
      (build_telemetry_data params).all_values (Key.name "battTotalSoc") = some (.i v) →
      (build_telemetry_data params).battery_soc = v) ∧
    ((build_telemetry_data params).all_values (Key.name "battTotalSoc") = none →
      ∀ v : Int,
        (build_telemetry_data params).all_values (Key.name "batterySoc") = some (.i v) →
        (build_telemetry_data params).battery_soc = v) ∧
    ((build_telemetry_data params).all_values (Key.name "battTotalSoc") = none →
      (build_telemetry_data params).all_values (Key.name "batterySoc") = none →
      (build_telemetry_data params).battery_soc = 0) := by
  refine ⟨?_, ?_, ?_⟩
  · intro v hv
    simp only [build_telemetry_data] at hv ⊢
    rw [hv]
    rfl
  · intro h0 v hv
    simp only [build_telemetry_data] at h0 hv ⊢
    rw [h0, hv]
    rfl
  · intro h0 h1
    simp only [build_telemetry_data] at h0 h1 ⊢
    rw [h0, h1]
    rfl

/-- Concrete frame for the C3 witness: battery segment whose 5 registers end
at `battTotalSoc = 42`, with no `batterySoc` register. -/
def socWitnessFrame : ParamsListBean :=
  { segment_count := 1
    segments := [{ segment_id := 4
                   segment_type := 3
                   segment_address := 0
                   params_num := 5
                   values := [0, 0, 0, 0, 0, 0, 0, 0, 0, 42] }] }

/-- C3 witness: presence-based selection at a concrete frame carrying
`battTotalSoc = 42`. -/
theorem battery_soc_presence_preference_witness :
    (build_telemetry_data socWitnessFrame).battery_soc = 42 :=
  (battery_soc_presence_preference socWitnessFrame).1 42 (by decide)

/-!  C5: total PV power synthesis. -/

/-- Concrete frame for C5: PV segment (id 3) with `pv1Power = 100` and
`pv2Power = 200`, plus an energy-flow segment (id 7) carrying the non-zero
precomputed total `energyFlowPvTotalPower = 500`. -/
def pvCexFrame : ParamsListBean :=
  { segment_count := 2
    segments := [{ segment_id := 3
                   segment_type := 3
                   segment_address := 0
                   params_num := 6
                   values := [0, 0, 0, 0, 0, 100, 0, 0, 0, 0, 0, 200] },
                 { segment_id := 7
                   segment_type := 3
                   segment_address := 50
                   params_num := 1
                   values := [1, 244] }] }

/-- C5 counterexample: with the precomputed PV-total register present and
non-zero (500), the synthesized total PV power is still the per-string sum
300, not 500 — the register populates only the separate
`energy_flow_pv_total_power` field and never takes precedence for
`pv_power`. -/
theorem pv_total_register_not_preferred :
    (build_telemetry_data pvCexFrame).all_values (Key.name "energyFlowPvTotalPower") =
      some (.i 500) ∧
    (build_telemetry_data pvCexFrame).pv_power = 300 ∧
    (build_telemetry_data pvCexFrame).energy_flow_pv_total_power = 500 := by decide

/-- C5 (amended): the synthesized total `pv_power` always equals the sum of
the two per-string PV powers; a present `energyFlowPvTotalPower` register
feeds only the separate `energy_flow_pv_total_power` field, which defaults
to `pv_power` when the register is absent. -/
theorem pv_power_sum_of_strings (params : ParamsListBean) :
    (build_telemetry_data params).pv_power =
      (build_telemetry_data params).pv1_power + (build_telemetry_data params).pv2_power ∧
    ((build_telemetry_data params).all_values (Key.name "energyFlowPvTotalPower") = none →
      (build_telemetry_data params).energy_flow_pv_total_power =
        (build_telemetry_data params).pv_power) ∧
    (∀ v : Int,
      (build_telemetry_data params).all_values (Key.name "energyFlowPvTotalPower") =
        some (.i v) →
      (build_telemetry_data params).energy_flow_pv_total_power = v) := by
  refine ⟨rfl, ?_, ?_⟩
  · intro h0
    simp only [build_telemetry_data, getInt] at h0 ⊢
    rw [h0]
    rfl
  · intro v hv
    simp only [build_telemetry_data, getInt] at hv ⊢
    rw [hv]
    rfl

/-- Concrete frame for the C5 witness: PV strings at 10 W and 0 W and a
precomputed total of 250 W. -/
def pvWitnessFrame : ParamsListBean :=
  { segment_count := 2
    segments := [{ segment_id := 3
                   segment_type := 3
                   segment_address := 0
                   params_num := 3
                   values := [0, 0, 0, 0, 0, 10] },
                 { segment_id := 7
                   segment_type := 3
                   segment_address := 50
                   params_num := 1
                   values := [0, 250] }] }

/-- C5 witness: the amended statement at a concrete frame. -/
theorem pv_power_sum_of_strings_witness :
    (build_telemetry_data pvWitnessFrame).energy_flow_pv_total_power = 250 :=
  (pv_power_sum_of_strings pvWitnessFrame).2.2 250 (by decide)

/-!  C6: grid power selection. -/

/-- Concrete frame for C6: only a load segment (id 8) with
`loadRealTimePower = 100`; no grid-power candidate register at all. -/
def gridCexFrame : ParamsListBean :=
  { segment_count := 1
    segments := [{ segment_id := 8
                   segment_type := 3
                   segment_address := 300
                   params_num := 4
                   values := [0, 0, 0, 0, 0, 0, 0, 100] }] }

/-- C6 counterexample: with no grid-power candidate register present and
`load = 100`, `pv = 0`, `battery = 0`, the energy-balance identity claimed by
the spec would yield `grid = load - pv + battery = 100`, but the code
synthesizes `grid_power = 0` (it is always `ct1Power`, defaulting to 0, with
no fallback derivation). -/
theorem grid_power_no_energy_balance_fallback :
    (build_telemetry_data gridCexFrame).all_values (Key.name "ct1Power") = none ∧
    (build_telemetry_data gridCexFrame).load_power = 100 ∧
    (build_telemetry_data gridCexFrame).pv_power = 0 ∧
    (build_telemetry_data gridCexFrame).battery_power = 0 ∧
    (build_telemetry_data gridCexFrame).grid_power = 0 := by decide

/-- C6 (amended): the synthesized grid power is always the `ct1Power`
register value (0 when the register is absent, with no ordered candidate
list beyond it and no energy-balance fallback); it is then split into
`grid_import = max(0, g)` and `grid_export = max(0, -g)`, never both
non-zero. -/
theorem grid_power_ct1_selection (params : ParamsListBean) :
    (build_telemetry_data params).grid_power = (build_telemetry_data params).ct1_power ∧
    ((build_telemetry_data params).all_values (Key.name "ct1Power") = none →
      (build_telemetry_data params).grid_power = 0) ∧
    (∀ v : Int,
      (build_telemetry_data params).all_values (Key.name "ct1Power") = some (.i v) →
      (build_telemetry_data params).grid_power = v) ∧
    (0 < InverterState.grid_import (build_telemetry_data params) →
      InverterState.grid_export (build_telemetry_data params) = 0) ∧
    (0 < InverterState.grid_export (build_telemetry_data params) →
      InverterState.grid_import (build_telemetry_data params) = 0) := by
  refine ⟨rfl, ?_, ?_, ?_, ?_⟩
  · intro h0
    simp only [build_telemetry_data, getInt] at h0 ⊢
    rw [h0]
    rfl
  · intro v hv
    simp only [build_telemetry_data, getInt] at hv ⊢
    rw [hv]
    rfl
  · simp only [InverterState.grid_import, InverterState.grid_export]
    omega
  · simp only [InverterState.grid_import, InverterState.grid_export]
    omega

/-- Concrete frame for the C6 witness: grid segment (id 5) whose register at
offset 5 is `ct1Power = 300`. -/
def gridWitnessFrame : ParamsListBean :=
  { segment_count := 1
    segments := [{ segment_id := 5
                   segment_type := 3
                   segment_address := 0
                   params_num := 6
                   values := [0, 0, 0, 0, 0, 0, 0, 0, 0, 0, 1, 44] }] }

/-- C6 witness: the `ct1Power` selection at a concrete frame. -/
theorem grid_power_ct1_selection_witness :
    (build_telemetry_data gridWitnessFrame).grid_power = 300 :=
  (grid_power_ct1_selection gridWitnessFrame).2.2.1 300 (by decide)

/-!  C7: unknown registers preserved under debug keys. -/

/-- The raw-register loop never touches semantic (catalog-name) keys. -/
lemma store_raw_fold_name (seg : ParamSegment) (s : String) :
    ∀ (l : List Nat) (acc : AllValues),
      (l.foldl (store_raw_register seg) acc) (Key.name s) = acc (Key.name s) := by
  intro l
  induction l with
  | nil => intro acc; rfl
  | cons i t ih =>
    intro acc
    rw [List.foldl_cons, ih]
    rw [store_raw_register]
    split
    · simp [updateMap]
    · rfl

/-- The raw-register loop leaves a debug key untouched when no visited
register index maps to its address. -/
lemma store_raw_fold_reg_ne (seg : ParamSegment) (a : Nat) :
    ∀ (l : List Nat) (acc : AllValues), (∀ i ∈ l, seg.segment_address + i ≠ a) →
      (l.foldl (store_raw_register seg) acc) (Key.reg a) = acc (Key.reg a) := by
  intro l
  induction l with
  | nil => intro acc _; rfl
  | cons i t ih =>
    intro acc hne
    rw [List.foldl_cons, ih _ (fun j hj => hne j (List.mem_cons_of_mem i hj))]
    rw [store_raw_register]
    split
    · simp only [updateMap]
      rw [if_neg]
      intro hcontra
      exact hne i (List.mem_cons_self i t) (Key.reg.inj hcontra).symm
    · rfl

/-- For a segment whose id has no key-map entry, parsing leaves every
semantic key unchanged. -/
lemma parse_segment_values_name (seg : ParamSegment) (m : AllValues)
    (hmap : SEGMENT_KEY_MAP seg.segment_id = []) (s : String) :
    parse_segment_values seg m (Key.name s) = m (Key.name s) := by
  dsimp only [parse_segment_values]
  rw [hmap]
  simp only [List.foldl_nil]
  exact store_raw_fold_name seg s _ m

/-- For a segment whose id has no key-map entry and whose first register is
present, parsing binds the debug key of the base address to that register's
signed 16-bit value. -/
lemma parse_segment_values_reg0 (seg : ParamSegment) (m : AllValues)
    (hmap : SEGMENT_KEY_MAP seg.segment_id = [])
    (hlen : 2 ≤ seg.values.length) (hnum : 1 ≤ seg.params_num) :
    parse_segment_values seg m (Key.reg seg.segment_address) =
      some (.i (bytes_to_int16_be (seg.values.getD 0 0) (seg.values.getD 1 0))) := by
  dsimp only [parse_segment_values]
  rw [hmap]
  simp only [List.foldl_nil]
  obtain ⟨k, hk⟩ : ∃ k, seg.params_num = k + 1 := ⟨seg.params_num - 1, by omega⟩
  rw [hk, List.range_succ_eq_map, List.foldl_cons]
  rw [store_raw_fold_reg_ne seg seg.segment_address _ _ ?_]
  · rw [store_raw_register, if_pos (by omega)]
    simp [updateMap]
  · intro i hi
    rcases List.mem_map.mp hi with ⟨j, _, rfl⟩
    omega

/-- C7: appending, to any frame, a segment whose id has no catalog entry
(here with base address `a` and first register bytes available) yields a
value map that contains the debug key `reg_a` bound to the raw signed 16-bit
register value, and leaves the value resolved for every semantic key — hence
every derived field — exactly as without that segment. -/
theorem unknown_register_preserved (params : ParamsListBean) (seg : ParamSegment)
    (hmap : SEGMENT_KEY_MAP seg.segment_id = []) :
    (2 ≤ seg.values.length → 1 ≤ seg.params_num →
      (build_telemetry_data
          { params with segments := params.segments ++ [seg] }).all_values
          (Key.reg seg.segment_address) =
        some (.i (bytes_to_int16_be (seg.values.getD 0 0) (seg.values.getD 1 0)))) ∧
    (∀ s : String,
      (build_telemetry_data
          { params with segments := params.segments ++ [seg] }).all_values (Key.name s) =
        (build_telemetry_data params).all_values (Key.name s)) := by
  have hav : (build_telemetry_data
      { params with segments := params.segments ++ [seg] }).all_values =
      parse_segment_values seg ((build_telemetry_data params).all_values) := by
    dsimp only [build_telemetry_data]
    rw [List.foldl_append]
    rfl
  constructor
  · intro hlen hnum
    rw [hav, parse_segment_values_reg0 seg _ hmap hlen hnum]
  · intro s
    rw [hav, parse_segment_values_name seg _ hmap s]

/-- Concrete known frame for the C7 witness: battery segment resolving
`battTotalSoc = 55`. -/
def knownFrame : ParamsListBean :=
  { segment_count := 1
    segments := [{ segment_id := 4
                   segment_type := 3
                   segment_address := 0
                   params_num := 5
                   values := [0, 0, 0, 0, 0, 0, 0, 0, 0, 55] }] }

/-- Concrete unknown segment for the C7 witness: segment id 12 (no catalog
entry), base address 9999, one register with bytes `[0xFF, 0x38]`
(signed value -200). -/
def unknownSegment : ParamSegment :=
  { segment_id := 12
    segment_type := 3
    segment_address := 9999
    params_num := 1
    values := [255, 56] }

/-- C7 witness: the debug-key binding and semantic-key preservation at a
concrete frame containing the unknown-address segment. -/
theorem unknown_register_preserved_witness :
    (build_telemetry_data
        { knownFrame with segments := knownFrame.segments ++ [unknownSegment] }).all_values
        (Key.reg 9999) = some (PVal.i (-200)) ∧
    (build_telemetry_data
        { knownFrame with segments := knownFrame.segments ++ [unknownSegment] }).all_values
        (Key.name "battTotalSoc") =
      (build_telemetry_data knownFrame).all_values (Key.name "battTotalSoc") :=
  ⟨(unknown_register_preserved knownFrame unknownSegment rfl).1 (by decide) (by decide),
   (unknown_register_preserved knownFrame unknownSegment rfl).2 "battTotalSoc"⟩
